import Mathlib

/-!
Shallow embedding of the attendance-decision core of the
face_attendance_system_web backend:

* `app/models/attendance.py`        — the `Attendance` record
* `app/repositories/attendance.py`  — `AttendanceRepository` (get/create/update)
* `app/services/attendance_service.py` — `AttendanceService.check_in` / `check_out`
* `app/services/auto_attendance.py` — `AutoAttendanceService`
  (`process_detection_for_attendance`, `process_batch_detections`,
   `manually_approve_attendance`)

Naive-UTC datetimes are modelled as `Nat` seconds since the epoch; float
confidences are modelled as `ℚ`; the database table is a `List Attendance`;
`None`-able Python values are `Option`s; raised `NotFoundError`s become
dedicated result constructors, mirroring the dict results the services
return.
-/

namespace FaceAttendance

/-- Seconds in one calendar day. -/
def secondsPerDay : Nat := 86400

/-- Python `t.replace(hour=0, minute=0, second=0, microsecond=0)`:
truncation of a timestamp to midnight of its calendar day. -/
def dayStart (t : Nat) : Nat := t / secondsPerDay * secondsPerDay

/-- Python `t.hour`: the wall-clock hour (0–23) of a timestamp. -/
def hourOf (t : Nat) : Nat := t % secondsPerDay / 3600

/-- Person directory entry (`app/models/person.py`); the attendance core only
reads `id`, `first_name`, `last_name`. -/
structure Person where
  id : String
  first_name : String
  last_name : String
deriving Repr, DecidableEq

/-- Python `f"{person.first_name} {person.last_name}"`. -/
def displayName (p : Person) : String := p.first_name ++ " " ++ p.last_name

/-- `PersonService.get_person`: `None` models the raised `NotFoundError`. -/
def getPerson (persons : List Person) (person_id : String) : Option Person :=
  persons.find? (fun p => p.id == person_id)

/-- The `Attendance` ORM model (`app/models/attendance.py`), restricted to the
columns the attendance services read or write. -/
structure Attendance where
  id : String
  person_id : String
  attendance_date : Nat
  check_in_time : Option Nat := none
  check_in_detection_id : Option String := none
  check_in_confidence : ℚ := 0
  check_in_camera_id : Option String := none
  check_in_source : String := "detection"
  check_out_time : Option Nat := none
  check_out_detection_id : Option String := none
  check_out_confidence : ℚ := 0
  check_out_camera_id : Option String := none
  check_out_source : String := "detection"
  duration_minutes : Option Int := none
  status : String := "present"
  is_manual : Bool := false
deriving Repr, DecidableEq

/-- The attendance table.  `app/models/attendance.py` declares only
non-unique indexes on it (`Index("ix_attendance_person_date", ...)`), no
unique constraint on `(person_id, attendance_date)`. -/
abbrev Store := List Attendance

/-- Row filter of `AttendanceRepository.get_by_person_and_date`: same person
and `attendance_date` within `[date_start, date_start.replace(hour=23,
minute=59, second=59, ...)]` of the (re-truncated) requested date. -/
def matchesPersonDate (person_id : String) (date_start : Nat) (a : Attendance) : Bool :=
  a.person_id == person_id
    && decide (date_start ≤ a.attendance_date)
    && decide (a.attendance_date ≤ date_start + (secondsPerDay - 1))

/-- `AttendanceRepository.get_by_person_and_date`. -/
def get_by_person_and_date (st : Store) (person_id : String) (attendance_date : Nat) :
    Option Attendance :=
  st.find? (matchesPersonDate person_id (dayStart attendance_date))

/-- Keyword arguments of `AttendanceRepository.update`: every field the
attendance service ever passes; `none` means the argument was absent or was
passed as Python `None`. -/
structure UpdateArgs where
  check_in_time : Option Nat := none
  check_in_detection_id : Option String := none
  check_in_confidence : Option ℚ := none
  check_in_camera_id : Option String := none
  check_in_source : Option String := none
  check_out_time : Option Nat := none
  check_out_detection_id : Option String := none
  check_out_confidence : Option ℚ := none
  check_out_camera_id : Option String := none
  check_out_source : Option String := none
  duration_minutes : Option Int := none
  status : Option String := none
deriving Repr, DecidableEq

/-- One step of the `AttendanceRepository.update` field loop for a nullable
column: the attribute is set only when the supplied value is not `None`. -/
def setOpt {α : Type} (newVal : Option α) (old : Option α) : Option α :=
  match newVal with
  | some v => some v
  | none => old

/-- One step of the `AttendanceRepository.update` field loop for a
non-nullable column. -/
def setVal {α : Type} (newVal : Option α) (old : α) : α :=
  match newVal with
  | some v => v
  | none => old

/-- Body of `AttendanceRepository.update`: `setattr` for each keyword argument
whose value `is not None`; every other column keeps its stored value. -/
def applyUpdate (a : Attendance) (u : UpdateArgs) : Attendance :=
  { a with
    check_in_time := setOpt u.check_in_time a.check_in_time
    check_in_detection_id := setOpt u.check_in_detection_id a.check_in_detection_id
    check_in_confidence := setVal u.check_in_confidence a.check_in_confidence
    check_in_camera_id := setOpt u.check_in_camera_id a.check_in_camera_id
    check_in_source := setVal u.check_in_source a.check_in_source
    check_out_time := setOpt u.check_out_time a.check_out_time
    check_out_detection_id := setOpt u.check_out_detection_id a.check_out_detection_id
    check_out_confidence := setVal u.check_out_confidence a.check_out_confidence
    check_out_camera_id := setOpt u.check_out_camera_id a.check_out_camera_id
    check_out_source := setVal u.check_out_source a.check_out_source
    duration_minutes := setOpt u.duration_minutes a.duration_minutes
    status := setVal u.status a.status }

/-- `AttendanceRepository.update` applied to the table: the row with the given
id is replaced by its updated version. -/
def updateById (st : Store) (attendance_id : String) (u : UpdateArgs) : Store :=
  st.map (fun a => if a.id == attendance_id then applyUpdate a u else a)

/-- `(check_in_time - existing.check_in_time).total_seconds() / 60`: the
signed difference of two timestamps in minutes (exact division of the
seconds by 60). -/
def timeDiffMinutes (newT oldT : Nat) : ℚ :=
  Rat.divInt ((newT : Int) - (oldT : Int)) 60

/-- `AttendanceService.DUPLICATE_CHECK_WINDOW`. -/
def DUPLICATE_CHECK_WINDOW : ℚ := 5

/-- The duplicate test of `check_in` / `check_out`: an existing field value
and `time_diff < DUPLICATE_CHECK_WINDOW` (a signed comparison in the source:
no absolute value is taken). -/
def isDupTime (newT : Nat) (old : Option Nat) : Bool :=
  match old with
  | some t => decide (timeDiffMinutes newT t < DUPLICATE_CHECK_WINDOW)
  | none => false

/-- Result dict of `AttendanceService.check_in`. -/
inductive CheckInResult where
  | personNotFound
  | duplicate (attendance_id : String)
  | recorded (attendance_id : String) (person_name : String) (check_in_time : Nat)
      (is_new : Bool) (confidence : ℚ)
deriving Repr, DecidableEq

/-- Result dict of `AttendanceService.check_out`. -/
inductive CheckOutResult where
  | personNotFound
  | noCheckInRecord
  | duplicate (attendance_id : String)
  | recorded (attendance_id : String) (person_name : String) (check_in_time : Option Nat)
      (check_out_time : Nat) (duration_minutes : Int) (confidence : ℚ)
deriving Repr, DecidableEq

/-- The keyword arguments `AttendanceService.check_in` passes to
`repo.update` when an existing row is found. -/
def checkInUpdateArgs (check_in_time : Nat) (detection_id : Option String)
    (confidence : ℚ) (camera_id : Option String) (is_manual : Bool) : UpdateArgs :=
  { check_in_time := some check_in_time
    check_in_detection_id := detection_id
    check_in_confidence := some confidence
    check_in_camera_id := camera_id
    check_in_source := some (if is_manual then "manual" else "detection")
    status := some "present" }

/-- The keyword arguments `AttendanceService.check_out` passes to
`repo.update`. -/
def checkOutUpdateArgs (check_out_time : Nat) (detection_id : Option String)
    (confidence : ℚ) (camera_id : Option String) (is_manual : Bool)
    (duration_minutes : Int) : UpdateArgs :=
  { check_out_time := some check_out_time
    check_out_detection_id := detection_id
    check_out_confidence := some confidence
    check_out_camera_id := camera_id
    check_out_source := some (if is_manual then "manual" else "detection")
    duration_minutes := some duration_minutes }

/-- The row `AttendanceService.check_in` creates when no existing row is
found (`repo.create` with the model's column defaults for everything not
passed). -/
def newCheckInRecord (fresh_id person_id : String) (attendance_date check_in_time : Nat)
    (detection_id : Option String) (confidence : ℚ) (camera_id : Option String)
    (is_manual : Bool) : Attendance :=
  { id := fresh_id
    person_id := person_id
    attendance_date := attendance_date
    check_in_time := some check_in_time
    check_in_detection_id := detection_id
    check_in_confidence := confidence
    check_in_camera_id := camera_id
    check_in_source := if is_manual then "manual" else "detection"
    status := "present" }

/-- `AttendanceService.check_in`, with the asynchronous boundary of the
service made explicit: the awaited `get_by_person_and_date` reads `snapshot`
(the table at fetch time), while the awaited create/update commit applies to
`st` (the table at commit time).  A single-task invocation has
`snapshot = st` (see `checkIn`); the service itself takes no row lock and the
table has no unique constraint, so a concurrent task may commit between the
two points. -/
def checkInStale (snapshot st : Store) (persons : List Person) (person_id : String)
    (check_in_time : Nat) (detection_id : Option String) (confidence : ℚ)
    (camera_id : Option String) (is_manual : Bool) (fresh_id : String) :
    CheckInResult × Store :=
  match getPerson persons person_id with
  | none => (.personNotFound, st)
  | some person =>
    let attendance_date := dayStart check_in_time
    match get_by_person_and_date snapshot person_id attendance_date with
    | some existing =>
      if isDupTime check_in_time existing.check_in_time then
        (.duplicate existing.id, st)
      else
        (.recorded existing.id (displayName person) check_in_time false confidence,
         updateById st existing.id
           (checkInUpdateArgs check_in_time detection_id confidence camera_id is_manual))
    | none =>
      (.recorded fresh_id (displayName person) check_in_time true confidence,
       st ++ [newCheckInRecord fresh_id person_id attendance_date check_in_time
                detection_id confidence camera_id is_manual])

/-- `AttendanceService.check_in` executed as one atomic fetch–decide–write
(no interleaving with other tasks). -/
def checkIn (st : Store) (persons : List Person) (person_id : String)
    (check_in_time : Nat) (detection_id : Option String) (confidence : ℚ)
    (camera_id : Option String) (is_manual : Bool) (fresh_id : String) :
    CheckInResult × Store :=
  checkInStale st st persons person_id check_in_time detection_id confidence
    camera_id is_manual fresh_id

/-- `AttendanceService.check_out` (atomic fetch–decide–write).
`duration_minutes = int(duration.total_seconds() / 60)`: Python `int()` on a
float truncates toward zero, which is `Int.tdiv` on exact seconds. -/
def checkOut (st : Store) (persons : List Person) (person_id : String)
    (check_out_time : Nat) (detection_id : Option String) (confidence : ℚ)
    (camera_id : Option String) (is_manual : Bool) :
    CheckOutResult × Store :=
  match getPerson persons person_id with
  | none => (.personNotFound, st)
  | some person =>
    let attendance_date := dayStart check_out_time
    match get_by_person_and_date st person_id attendance_date with
    | none => (.noCheckInRecord, st)
    | some existing =>
      match existing.check_in_time with
      | none => (.noCheckInRecord, st)
      | some check_in_t =>
        if isDupTime check_out_time existing.check_out_time then
          (.duplicate existing.id, st)
        else
          let duration_minutes : Int :=
            Int.tdiv ((check_out_time : Int) - (check_in_t : Int)) 60
          let u : UpdateArgs :=
            checkOutUpdateArgs check_out_time detection_id confidence camera_id
              is_manual duration_minutes
          let updated := applyUpdate existing u
          (.recorded updated.id (displayName person) updated.check_in_time
             check_out_time duration_minutes confidence,
           updateById st existing.id u)

/-- A `Detection` row (`app/models/detection.py`), restricted to the columns
`AutoAttendanceService` reads. -/
structure Detection where
  id : String
  camera_id : Option String
  person_id : Option String
  confidence : ℚ
  created_at : Nat
deriving Repr, DecidableEq

/-- `AutoAttendanceService.MIN_CONFIDENCE_FOR_AUTO_CHECK_IN` (the source
literal `0.7`, i.e. 7/10). -/
def MIN_CONFIDENCE_FOR_AUTO_CHECK_IN : ℚ := mkRat 7 10

/-- `AutoAttendanceService.MIN_CONFIDENCE_FOR_REVIEW` (the source literal
`0.6`, i.e. 6/10). -/
def MIN_CONFIDENCE_FOR_REVIEW : ℚ := mkRat 6 10

/-- Result dict of `AutoAttendanceService.process_detection_for_attendance`.
`processed` is True only for the two `Marked` constructors; the
`requires_review` key is present (and True) only for `midDayReview` and
`belowAutoReview`. -/
inductive ProcResult where
  | noPersonLinked
  | lowConfidence (confidence : ℚ)
  | personNotFound (person_id : String)
  | checkInMarked (attendance_id : String) (person_name : String) (confidence : ℚ)
  | checkInFailed
  | checkOutMarked (attendance_id : String) (person_name : String) (confidence : ℚ)
  | checkOutFailed
  | midDayReview (confidence : ℚ)
  | belowAutoReview (confidence : ℚ)
deriving Repr, DecidableEq

/-- The `result["processed"]` flag. -/
def ProcResult.processed : ProcResult → Bool
  | .checkInMarked _ _ _ => true
  | .checkOutMarked _ _ _ => true
  | _ => false

/-- The `result.get("requires_review")` flag (truthy only where the source
puts `"requires_review": True` in the returned dict). -/
def ProcResult.requiresReview : ProcResult → Bool
  | .midDayReview _ => true
  | .belowAutoReview _ => true
  | _ => false

/-- True for exactly the outcomes produced inside the `should_auto_mark`
branch of `process_detection_for_attendance`, i.e. after the detection has
passed the confidence gate and reached the time-of-day heuristic. -/
def ProcResult.reachedTimeHeuristic : ProcResult → Bool
  | .checkInMarked _ _ _ => true
  | .checkInFailed => true
  | .checkOutMarked _ _ _ => true
  | .checkOutFailed => true
  | .midDayReview _ => true
  | _ => false

/-- `AutoAttendanceService.process_detection_for_attendance`: confidence gate,
person lookup, auto-mark threshold, time-of-day heuristic, then delegation to
`AttendanceService.check_in` / `check_out`.  `fresh_id` stands for the
`uuid4()` a created row would receive. -/
def process_detection_for_attendance (st : Store) (persons : List Person)
    (d : Detection) (fresh_id : String) : ProcResult × Store :=
  match d.person_id with
  | none => (.noPersonLinked, st)
  | some person_id =>
    if d.confidence < MIN_CONFIDENCE_FOR_REVIEW then
      (.lowConfidence d.confidence, st)
    else
      match getPerson persons person_id with
      | none => (.personNotFound person_id, st)
      | some _ =>
        if d.confidence ≥ MIN_CONFIDENCE_FOR_AUTO_CHECK_IN then
          let hour := hourOf d.created_at
          if hour < 12 then
            match checkIn st persons person_id d.created_at (some d.id)
                d.confidence d.camera_id false fresh_id with
            | (.recorded aid name _ _ _, st') => (.checkInMarked aid name d.confidence, st')
            | (_, st') => (.checkInFailed, st')
          else if hour ≥ 16 then
            match checkOut st persons person_id d.created_at (some d.id)
                d.confidence d.camera_id false with
            | (.recorded aid name _ _ _ _, st') => (.checkOutMarked aid name d.confidence, st')
            | (_, st') => (.checkOutFailed, st')
          else
            (.midDayReview d.confidence, st)
        else
          (.belowAutoReview d.confidence, st)

/-- Counters of `AutoAttendanceService.process_batch_detections`. -/
structure BatchResults where
  total_processed : Nat
  auto_marked : Nat
  requires_review : Nat
  failed : Nat
  details : List ProcResult
deriving Repr, DecidableEq

/-- `AutoAttendanceService.process_batch_detections`: each detection is run
through `process_detection_for_attendance` in order; `processed` results
increment `auto_marked` and `total_processed`, `requires_review` results
increment `requires_review`, everything else increments `failed`.  `idGen n`
stands for the `uuid4()` of the `n`-th event of the batch. -/
def process_batch_detections (persons : List Person) (idGen : Nat → String) :
    Nat → Store → List Detection → BatchResults × Store
  | _, st, [] =>
    ({ total_processed := 0, auto_marked := 0, requires_review := 0,
       failed := 0, details := [] }, st)
  | n, st, d :: rest =>
    let (r, st') := process_detection_for_attendance st persons d (idGen n)
    let (acc, st'') := process_batch_detections persons idGen (n + 1) st' rest
    ({ total_processed := (if r.processed then 1 else 0) + acc.total_processed
       auto_marked := (if r.processed then 1 else 0) + acc.auto_marked
       requires_review :=
         (if !r.processed && r.requiresReview then 1 else 0) + acc.requires_review
       failed :=
         (if !r.processed && !r.requiresReview then 1 else 0) + acc.failed
       details := r :: acc.details }, st'')

/-- Result of `AutoAttendanceService.manually_approve_attendance`: the
delegated check-in/check-out dict, or the invalid-action error dict. -/
inductive ApproveResult where
  | fromCheckIn (r : CheckInResult)
  | fromCheckOut (r : CheckOutResult)
  | invalidAction (action : String)
deriving Repr, DecidableEq

/-- `AutoAttendanceService.manually_approve_attendance`: dispatches on the
`action` string and calls the attendance service with `is_manual=True` and
the caller-supplied timestamp; `confidence` and `camera_id` are left at the
service defaults (`1.0`, `None`). -/
def manually_approve_attendance (st : Store) (persons : List Person)
    (detection_id person_id action : String) (timestamp : Nat)
    (fresh_id : String) : ApproveResult × Store :=
  if action == "check_in" then
    let (r, st') :=
      checkIn st persons person_id timestamp (some detection_id) 1 none true fresh_id
    (.fromCheckIn r, st')
  else if action == "check_out" then
    let (r, st') :=
      checkOut st persons person_id timestamp (some detection_id) 1 none true
    (.fromCheckOut r, st')
  else
    (.invalidAction action, st)

/-- Duplicate Suppression Policy as the specification words it, to be
compared with the code's `isDupTime`.  Modelled from the spec: duplicate iff
the relevant field is set and the absolute difference between the new event
time and the stored time is below `DUPLICATE_WINDOW_MINUTES (5)`, i.e. below
300 seconds — a window symmetric in time. -/
def specSymmetricDup (newT : Nat) (old : Option Nat) : Bool :=
  match old with
  | some t => decide (((newT : Int) - (t : Int)).natAbs < 300)
  | none => false

/-- Spec invariant (§8 Uniqueness): at most one attendance row per
`(person_id, calendar day)`. -/
def uniquePerPersonDay (st : Store) : Prop :=
  st.Pairwise (fun a b =>
    ¬(a.person_id = b.person_id ∧ dayStart a.attendance_date = dayStart b.attendance_date))

/-! ### General lemmas about the embedded operations -/

theorem dayStart_dayStart (t : Nat) : dayStart (dayStart t) = dayStart t := by
  unfold dayStart secondsPerDay
  omega

theorem isDupTime_some_iff (newT old : Nat) :
    isDupTime newT (some old) = true ↔ (newT : Int) - (old : Int) < 300 := by
  unfold isDupTime timeDiffMinutes DUPLICATE_CHECK_WINDOW
  rw [decide_eq_true_eq]
  rw [Rat.divInt_eq_div]
  rw [show ((60 : Int) : ℚ) = (60 : ℚ) by norm_num]
  rw [div_lt_iff₀ (by norm_num : (0:ℚ) < 60)]
  constructor
  · intro h
    exact_mod_cast h
  · intro h
    exact_mod_cast h

theorem matchesPersonDate_eq_true_iff (person_id : String) (t : Nat) (a : Attendance) :
    matchesPersonDate person_id (dayStart t) a = true ↔
      (a.person_id = person_id ∧ dayStart a.attendance_date = dayStart t) := by
  unfold matchesPersonDate
  simp only [Bool.and_eq_true, beq_iff_eq, decide_eq_true_eq]
  unfold dayStart secondsPerDay
  constructor
  · rintro ⟨⟨h1, h2⟩, h3⟩
    exact ⟨h1, by omega⟩
  · rintro ⟨h1, h2⟩
    exact ⟨⟨h1, by omega⟩, by omega⟩

theorem get_by_person_and_date_eq_none_iff (st : Store) (person_id : String) (d : Nat) :
    get_by_person_and_date st person_id d = none ↔
      ∀ a ∈ st, ¬(a.person_id = person_id ∧ dayStart a.attendance_date = dayStart d) := by
  unfold get_by_person_and_date
  rw [List.find?_eq_none]
  constructor
  · intro h a ha hc
    exact h a ha ((matchesPersonDate_eq_true_iff person_id d a).2 hc)
  · intro h a ha hmt
    exact h a ha ((matchesPersonDate_eq_true_iff person_id d a).1 hmt)

theorem applyUpdate_id (a : Attendance) (u : UpdateArgs) :
    (applyUpdate a u).id = a.id := rfl

theorem applyUpdate_person_id (a : Attendance) (u : UpdateArgs) :
    (applyUpdate a u).person_id = a.person_id := rfl

theorem applyUpdate_attendance_date (a : Attendance) (u : UpdateArgs) :
    (applyUpdate a u).attendance_date = a.attendance_date := rfl

theorem uniquePerPersonDay_updateById (st : Store) (aid : String) (u : UpdateArgs)
    (h : uniquePerPersonDay st) : uniquePerPersonDay (updateById st aid u) := by
  unfold uniquePerPersonDay updateById
  rw [List.pairwise_map]
  refine h.imp ?_
  intro a b hab
  by_cases ha : (a.id == aid) <;> by_cases hb : (b.id == aid) <;>
    simpa [ha, hb, applyUpdate_person_id, applyUpdate_attendance_date] using hab

theorem uniquePerPersonDay_append_new (st : Store) (a : Attendance)
    (hst : uniquePerPersonDay st)
    (hnew : ∀ b ∈ st,
      ¬(b.person_id = a.person_id ∧ dayStart b.attendance_date = dayStart a.attendance_date)) :
    uniquePerPersonDay (st ++ [a]) := by
  unfold uniquePerPersonDay
  rw [List.pairwise_append]
  refine ⟨hst, by simp, ?_⟩
  intro x hx y hy
  simp only [List.mem_singleton] at hy
  subst hy
  exact hnew x hx

/-! ### Branch equations of `check_in` / `check_out` -/

theorem checkIn_personNotFound (st : Store) (persons : List Person) (pid : String)
    (t : Nat) (det : Option String) (conf : ℚ) (cam : Option String) (man : Bool)
    (fid : String) (hp : getPerson persons pid = none) :
    checkIn st persons pid t det conf cam man fid = (.personNotFound, st) := by
  unfold checkIn checkInStale
  rw [hp]

theorem checkIn_create (st : Store) (persons : List Person) (pid : String)
    (t : Nat) (det : Option String) (conf : ℚ) (cam : Option String) (man : Bool)
    (fid : String) (person : Person) (hp : getPerson persons pid = some person)
    (hf : get_by_person_and_date st pid (dayStart t) = none) :
    checkIn st persons pid t det conf cam man fid =
      (.recorded fid (displayName person) t true conf,
       st ++ [newCheckInRecord fid pid (dayStart t) t det conf cam man]) := by
  unfold checkIn checkInStale
  simp only [hp, hf]

theorem checkIn_dup (st : Store) (persons : List Person) (pid : String)
    (t : Nat) (det : Option String) (conf : ℚ) (cam : Option String) (man : Bool)
    (fid : String) (person : Person) (ex : Attendance)
    (hp : getPerson persons pid = some person)
    (hf : get_by_person_and_date st pid (dayStart t) = some ex)
    (hd : isDupTime t ex.check_in_time = true) :
    checkIn st persons pid t det conf cam man fid = (.duplicate ex.id, st) := by
  unfold checkIn checkInStale
  simp only [hp, hf]
  simp [hd]

theorem checkIn_update (st : Store) (persons : List Person) (pid : String)
    (t : Nat) (det : Option String) (conf : ℚ) (cam : Option String) (man : Bool)
    (fid : String) (person : Person) (ex : Attendance)
    (hp : getPerson persons pid = some person)
    (hf : get_by_person_and_date st pid (dayStart t) = some ex)
    (hd : isDupTime t ex.check_in_time = false) :
    checkIn st persons pid t det conf cam man fid =
      (.recorded ex.id (displayName person) t false conf,
       updateById st ex.id (checkInUpdateArgs t det conf cam man)) := by
  unfold checkIn checkInStale
  simp only [hp, hf]
  simp [hd]

theorem checkOut_personNotFound (st : Store) (persons : List Person) (pid : String)
    (t : Nat) (det : Option String) (conf : ℚ) (cam : Option String) (man : Bool)
    (hp : getPerson persons pid = none) :
    checkOut st persons pid t det conf cam man = (.personNotFound, st) := by
  unfold checkOut
  rw [hp]

theorem checkOut_noRecord (st : Store) (persons : List Person) (pid : String)
    (t : Nat) (det : Option String) (conf : ℚ) (cam : Option String) (man : Bool)
    (person : Person) (hp : getPerson persons pid = some person)
    (hf : get_by_person_and_date st pid (dayStart t) = none) :
    checkOut st persons pid t det conf cam man = (.noCheckInRecord, st) := by
  unfold checkOut
  simp only [hp, hf]

theorem checkOut_noCheckInTime (st : Store) (persons : List Person) (pid : String)
    (t : Nat) (det : Option String) (conf : ℚ) (cam : Option String) (man : Bool)
    (person : Person) (ex : Attendance) (hp : getPerson persons pid = some person)
    (hf : get_by_person_and_date st pid (dayStart t) = some ex)
    (hci : ex.check_in_time = none) :
    checkOut st persons pid t det conf cam man = (.noCheckInRecord, st) := by
  unfold checkOut
  simp only [hp, hf, hci]

theorem checkOut_dup (st : Store) (persons : List Person) (pid : String)
    (t : Nat) (det : Option String) (conf : ℚ) (cam : Option String) (man : Bool)
    (person : Person) (ex : Attendance) (inT : Nat)
    (hp : getPerson persons pid = some person)
    (hf : get_by_person_and_date st pid (dayStart t) = some ex)
    (hci : ex.check_in_time = some inT)
    (hd : isDupTime t ex.check_out_time = true) :
    checkOut st persons pid t det conf cam man = (.duplicate ex.id, st) := by
  unfold checkOut
  simp only [hp, hf, hci]
  simp [hd]

theorem checkOut_recorded (st : Store) (persons : List Person) (pid : String)
    (t : Nat) (det : Option String) (conf : ℚ) (cam : Option String) (man : Bool)
    (person : Person) (ex : Attendance) (inT : Nat)
    (hp : getPerson persons pid = some person)
    (hf : get_by_person_and_date st pid (dayStart t) = some ex)
    (hci : ex.check_in_time = some inT)
    (hd : isDupTime t ex.check_out_time = false) :
    checkOut st persons pid t det conf cam man =
      (.recorded ex.id (displayName person) (some inT) t
         (Int.tdiv ((t : Int) - (inT : Int)) 60) conf,
       updateById st ex.id
         (checkOutUpdateArgs t det conf cam man (Int.tdiv ((t : Int) - (inT : Int)) 60))) := by
  unfold checkOut
  simp only [hp, hf, hci]
  simp [hd, applyUpdate, checkOutUpdateArgs, setOpt, hci]

/-! ### Branch equations of `process_detection_for_attendance` -/

theorem proc_noPerson (st : Store) (persons : List Person) (d : Detection)
    (fid : String) (hpid : d.person_id = none) :
    process_detection_for_attendance st persons d fid = (.noPersonLinked, st) := by
  unfold process_detection_for_attendance
  simp only [hpid]

theorem proc_lowConfidence (st : Store) (persons : List Person) (d : Detection)
    (fid : String) (pid : String) (hpid : d.person_id = some pid)
    (hc : d.confidence < MIN_CONFIDENCE_FOR_REVIEW) :
    process_detection_for_attendance st persons d fid = (.lowConfidence d.confidence, st) := by
  unfold process_detection_for_attendance
  simp only [hpid]
  rw [if_pos hc]

theorem proc_personNotFound (st : Store) (persons : List Person) (d : Detection)
    (fid : String) (pid : String) (hpid : d.person_id = some pid)
    (hc : ¬ d.confidence < MIN_CONFIDENCE_FOR_REVIEW)
    (hp : getPerson persons pid = none) :
    process_detection_for_attendance st persons d fid = (.personNotFound pid, st) := by
  unfold process_detection_for_attendance
  simp only [hpid]
  rw [if_neg hc]
  simp only [hp]

theorem proc_belowAuto (st : Store) (persons : List Person) (d : Detection)
    (fid : String) (pid : String) (person : Person) (hpid : d.person_id = some pid)
    (hc : ¬ d.confidence < MIN_CONFIDENCE_FOR_REVIEW)
    (hp : getPerson persons pid = some person)
    (ha : ¬ MIN_CONFIDENCE_FOR_AUTO_CHECK_IN ≤ d.confidence) :
    process_detection_for_attendance st persons d fid =
      (.belowAutoReview d.confidence, st) := by
  unfold process_detection_for_attendance
  simp only [hpid]
  rw [if_neg hc]
  simp only [hp]
  rw [if_neg ha]

theorem proc_midDay (st : Store) (persons : List Person) (d : Detection)
    (fid : String) (pid : String) (person : Person) (hpid : d.person_id = some pid)
    (hc : ¬ d.confidence < MIN_CONFIDENCE_FOR_REVIEW)
    (hp : getPerson persons pid = some person)
    (ha : MIN_CONFIDENCE_FOR_AUTO_CHECK_IN ≤ d.confidence)
    (hh1 : ¬ hourOf d.created_at < 12) (hh2 : ¬ 16 ≤ hourOf d.created_at) :
    process_detection_for_attendance st persons d fid =
      (.midDayReview d.confidence, st) := by
  unfold process_detection_for_attendance
  simp only [hpid]
  rw [if_neg hc]
  simp only [hp]
  rw [if_pos ha, if_neg hh1, if_neg hh2]

theorem proc_morning (st : Store) (persons : List Person) (d : Detection)
    (fid : String) (pid : String) (person : Person) (hpid : d.person_id = some pid)
    (hc : ¬ d.confidence < MIN_CONFIDENCE_FOR_REVIEW)
    (hp : getPerson persons pid = some person)
    (ha : MIN_CONFIDENCE_FOR_AUTO_CHECK_IN ≤ d.confidence)
    (hh : hourOf d.created_at < 12) :
    process_detection_for_attendance st persons d fid =
      ((match (checkIn st persons pid d.created_at (some d.id) d.confidence
            d.camera_id false fid).1 with
        | .recorded aid nm _ _ _ => .checkInMarked aid nm d.confidence
        | _ => .checkInFailed),
       (checkIn st persons pid d.created_at (some d.id) d.confidence
          d.camera_id false fid).2) := by
  unfold process_detection_for_attendance
  simp only [hpid]
  rw [if_neg hc]
  simp only [hp]
  rw [if_pos ha, if_pos hh]
  rcases hck : checkIn st persons pid d.created_at (some d.id) d.confidence
      d.camera_id false fid with ⟨r, st'⟩
  cases r <;> rfl

theorem proc_evening (st : Store) (persons : List Person) (d : Detection)
    (fid : String) (pid : String) (person : Person) (hpid : d.person_id = some pid)
    (hc : ¬ d.confidence < MIN_CONFIDENCE_FOR_REVIEW)
    (hp : getPerson persons pid = some person)
    (ha : MIN_CONFIDENCE_FOR_AUTO_CHECK_IN ≤ d.confidence)
    (hh1 : ¬ hourOf d.created_at < 12) (hh2 : 16 ≤ hourOf d.created_at) :
    process_detection_for_attendance st persons d fid =
      ((match (checkOut st persons pid d.created_at (some d.id) d.confidence
            d.camera_id false).1 with
        | .recorded aid nm _ _ _ _ => .checkOutMarked aid nm d.confidence
        | _ => .checkOutFailed),
       (checkOut st persons pid d.created_at (some d.id) d.confidence
          d.camera_id false).2) := by
  unfold process_detection_for_attendance
  simp only [hpid]
  rw [if_neg hc]
  simp only [hp]
  rw [if_pos ha, if_neg hh1, if_pos hh2]
  rcases hck : checkOut st persons pid d.created_at (some d.id) d.confidence
      d.camera_id false with ⟨r, st'⟩
  cases r <;> rfl

/-! ### Claims -/

/-- C10: `AttendanceRepository.update` ignores every keyword argument whose
value is `None`: each field passed as `None` keeps its previous value, a
field already holding a non-null value can never be reset to null by an
update, and in particular a manual check-in that passes `detection_id=None`
leaves the row's previous `check_in_detection_id` unchanged. -/
theorem C10_update_ignores_none (a : Attendance) (u : UpdateArgs) :
    (u.check_in_time = none → (applyUpdate a u).check_in_time = a.check_in_time)
    ∧ (u.check_in_detection_id = none →
        (applyUpdate a u).check_in_detection_id = a.check_in_detection_id)
    ∧ (u.check_in_confidence = none →
        (applyUpdate a u).check_in_confidence = a.check_in_confidence)
    ∧ (u.check_in_camera_id = none →
        (applyUpdate a u).check_in_camera_id = a.check_in_camera_id)
    ∧ (u.check_in_source = none → (applyUpdate a u).check_in_source = a.check_in_source)
    ∧ (u.check_out_time = none → (applyUpdate a u).check_out_time = a.check_out_time)
    ∧ (u.check_out_detection_id = none →
        (applyUpdate a u).check_out_detection_id = a.check_out_detection_id)
    ∧ (u.check_out_confidence = none →
        (applyUpdate a u).check_out_confidence = a.check_out_confidence)
    ∧ (u.check_out_camera_id = none →
        (applyUpdate a u).check_out_camera_id = a.check_out_camera_id)
    ∧ (u.check_out_source = none →
        (applyUpdate a u).check_out_source = a.check_out_source)
    ∧ (u.duration_minutes = none →
        (applyUpdate a u).duration_minutes = a.duration_minutes)
    ∧ (u.status = none → (applyUpdate a u).status = a.status)
    ∧ ((applyUpdate a u).id = a.id ∧ (applyUpdate a u).person_id = a.person_id ∧
        (applyUpdate a u).attendance_date = a.attendance_date)
    ∧ (a.check_in_time.isSome → ((applyUpdate a u).check_in_time).isSome)
    ∧ (a.check_in_detection_id.isSome → ((applyUpdate a u).check_in_detection_id).isSome)
    ∧ (a.check_in_camera_id.isSome → ((applyUpdate a u).check_in_camera_id).isSome)
    ∧ (a.check_out_time.isSome → ((applyUpdate a u).check_out_time).isSome)
    ∧ (a.check_out_detection_id.isSome → ((applyUpdate a u).check_out_detection_id).isSome)
    ∧ (a.check_out_camera_id.isSome → ((applyUpdate a u).check_out_camera_id).isSome)
    ∧ (a.duration_minutes.isSome → ((applyUpdate a u).duration_minutes).isSome)
    ∧ (∀ (st : Store) (persons : List Person) (pid : String) (t : Nat) (conf : ℚ)
        (cam : Option String) (fid : String), ∀ ex ∈ st,
        ∃ a' ∈ (checkIn st persons pid t none conf cam true fid).2,
          a'.id = ex.id ∧ a'.check_in_detection_id = ex.check_in_detection_id) := by
  refine ⟨fun h => by simp [applyUpdate, setOpt, h],
    fun h => by simp [applyUpdate, setOpt, h],
    fun h => by simp [applyUpdate, setVal, h],
    fun h => by simp [applyUpdate, setOpt, h],
    fun h => by simp [applyUpdate, setVal, h],
    fun h => by simp [applyUpdate, setOpt, h],
    fun h => by simp [applyUpdate, setOpt, h],
    fun h => by simp [applyUpdate, setVal, h],
    fun h => by simp [applyUpdate, setOpt, h],
    fun h => by simp [applyUpdate, setVal, h],
    fun h => by simp [applyUpdate, setOpt, h],
    fun h => by simp [applyUpdate, setVal, h],
    ⟨rfl, rfl, rfl⟩, ?_, ?_, ?_, ?_, ?_, ?_, ?_, ?_⟩
  · intro h
    rcases hu : u.check_in_time with _ | v <;> simp [applyUpdate, setOpt, hu, h]
  · intro h
    rcases hu : u.check_in_detection_id with _ | v <;> simp [applyUpdate, setOpt, hu, h]
  · intro h
    rcases hu : u.check_in_camera_id with _ | v <;> simp [applyUpdate, setOpt, hu, h]
  · intro h
    rcases hu : u.check_out_time with _ | v <;> simp [applyUpdate, setOpt, hu, h]
  · intro h
    rcases hu : u.check_out_detection_id with _ | v <;> simp [applyUpdate, setOpt, hu, h]
  · intro h
    rcases hu : u.check_out_camera_id with _ | v <;> simp [applyUpdate, setOpt, hu, h]
  · intro h
    rcases hu : u.duration_minutes with _ | v <;> simp [applyUpdate, setOpt, hu, h]
  · intro st persons pid t conf cam fid ex hex
    rcases hp : getPerson persons pid with _ | person
    · rw [checkIn_personNotFound st persons pid t none conf cam true fid hp]
      exact ⟨ex, hex, rfl, rfl⟩
    · rcases hf : get_by_person_and_date st pid (dayStart t) with _ | ex2
      · rw [checkIn_create st persons pid t none conf cam true fid person hp hf]
        exact ⟨ex, List.mem_append_left _ hex, rfl, rfl⟩
      · rcases hd : isDupTime t ex2.check_in_time with _ | _
        · rw [checkIn_update st persons pid t none conf cam true fid person ex2 hp hf hd]
          refine ⟨(fun b => if b.id == ex2.id then
              applyUpdate b (checkInUpdateArgs t none conf cam true) else b) ex,
            List.mem_map_of_mem _ hex, ?_, ?_⟩
          · by_cases hid : (ex.id == ex2.id) <;> simp [hid, applyUpdate_id]
          · by_cases hid : (ex.id == ex2.id) <;>
              simp [hid, applyUpdate, setOpt, checkInUpdateArgs]
        · rw [checkIn_dup st persons pid t none conf cam true fid person ex2 hp hf hd]
          exact ⟨ex, hex, rfl, rfl⟩

/-- C10 witness: a manual check-in update built with `detection_id=None`
leaves a stored `check_in_detection_id` untouched. -/
theorem C10_witness :
    (applyUpdate
      { id := "a1", person_id := "P1", attendance_date := 0,
        check_in_detection_id := some "d0" }
      (checkInUpdateArgs 36000 none 1 none true)).check_in_detection_id
      = some "d0" := by
  rw [(C10_update_ignores_none
    { id := "a1", person_id := "P1", attendance_date := 0,
      check_in_detection_id := some "d0" }
    (checkInUpdateArgs 36000 none 1 none true)).2.1 rfl]

/-- C9 counterexample: with an empty person directory, a confident morning
detection for person "P1" is NOT recorded with `person_id` as the display
name — the decision fails with a person-not-found outcome (`processed =
false`) and the store is unchanged (no write), contradicting the claim that
a lookup failure does not fail the decision. -/
theorem C9_counterexample :
    process_detection_for_attendance [] []
        { id := "d1", camera_id := none, person_id := some "P1",
          confidence := mkRat 9 10, created_at := 28800 } "a1"
      = (.personNotFound "P1", [])
    ∧ (ProcResult.personNotFound "P1").processed = false := by
  exact ⟨rfl, rfl⟩

/-- C9 (amended): a failure to look up the person in the Person directory
FAILS the decision: `process_detection_for_attendance` returns a
person-not-found outcome with no write (for any detection past the
confidence gate), and `check_in` / `check_out` likewise return a
not-found failure with no write; `person_id` is never used as a fallback
display name. -/
theorem C9_person_lookup_failure (st : Store) (persons : List Person) (d : Detection)
    (fid : String) (pid : String) (hpid : d.person_id = some pid)
    (hconf : ¬ d.confidence < MIN_CONFIDENCE_FOR_REVIEW)
    (hp : getPerson persons pid = none) :
    process_detection_for_attendance st persons d fid = (.personNotFound pid, st)
    ∧ (∀ (t : Nat) (det : Option String) (conf : ℚ) (cam : Option String)
        (man : Bool) (fid2 : String),
        checkIn st persons pid t det conf cam man fid2 = (.personNotFound, st))
    ∧ (∀ (t : Nat) (det : Option String) (conf : ℚ) (cam : Option String)
        (man : Bool),
        checkOut st persons pid t det conf cam man = (.personNotFound, st)) := by
  refine ⟨proc_personNotFound st persons d fid pid hpid hconf hp, ?_, ?_⟩
  · intro t det conf cam man fid2
    exact checkIn_personNotFound st persons pid t det conf cam man fid2 hp
  · intro t det conf cam man
    exact checkOut_personNotFound st persons pid t det conf cam man hp

/-- C9 witness: the amended behaviour at a concrete confident detection and
an empty person directory. -/
theorem C9_witness :
    process_detection_for_attendance [] []
        { id := "d2", camera_id := none, person_id := some "P9",
          confidence := mkRat 8 10, created_at := 30000 } "a1"
      = (.personNotFound "P9", []) :=
  (C9_person_lookup_failure [] []
    { id := "d2", camera_id := none, person_id := some "P9",
      confidence := mkRat 8 10, created_at := 30000 } "a1" "P9" rfl
    (by decide) rfl).1

/-- C4: the Confidence Gate is a three-way classification of a linked,
resolvable detection's confidence with boundaries exactly at 0.60 and 0.70:
confidence < 0.60 yields the rejected low-confidence outcome with no write;
0.60 ≤ confidence < 0.70 yields the needs-review outcome with no write;
confidence ≥ 0.70 (and only then) reaches the time-of-day heuristic. -/
theorem C4_confidence_gate (st : Store) (persons : List Person) (d : Detection)
    (fid : String) (pid : String) (person : Person)
    (hpid : d.person_id = some pid) (hp : getPerson persons pid = some person) :
    (d.confidence < MIN_CONFIDENCE_FOR_REVIEW ↔
      process_detection_for_attendance st persons d fid
        = (.lowConfidence d.confidence, st))
    ∧ ((MIN_CONFIDENCE_FOR_REVIEW ≤ d.confidence ∧
        d.confidence < MIN_CONFIDENCE_FOR_AUTO_CHECK_IN) ↔
      process_detection_for_attendance st persons d fid
        = (.belowAutoReview d.confidence, st))
    ∧ (MIN_CONFIDENCE_FOR_AUTO_CHECK_IN ≤ d.confidence ↔
      ((process_detection_for_attendance st persons d fid).1).reachedTimeHeuristic
        = true) := by
  by_cases h1 : d.confidence < MIN_CONFIDENCE_FOR_REVIEW
  · have heq := proc_lowConfidence st persons d fid pid hpid h1
    have h2 : ¬ MIN_CONFIDENCE_FOR_AUTO_CHECK_IN ≤ d.confidence := by
      intro hle
      have : MIN_CONFIDENCE_FOR_REVIEW ≤ MIN_CONFIDENCE_FOR_AUTO_CHECK_IN := by decide
      exact absurd h1 (not_lt.2 (this.trans hle))
    refine ⟨⟨fun _ => heq, fun _ => h1⟩, ?_, ?_⟩
    · constructor
      · rintro ⟨hge, -⟩
        exact absurd h1 (not_lt.2 hge)
      · intro hres
        rw [heq] at hres
        simp at hres
    · constructor
      · intro hle
        exact absurd hle h2
      · intro hres
        rw [heq] at hres
        simp [ProcResult.reachedTimeHeuristic] at hres
  · by_cases h2 : MIN_CONFIDENCE_FOR_AUTO_CHECK_IN ≤ d.confidence
    · have hmain : ((process_detection_for_attendance st persons d fid).1).reachedTimeHeuristic
          = true ∧
          process_detection_for_attendance st persons d fid
            ≠ (.lowConfidence d.confidence, st) ∧
          process_detection_for_attendance st persons d fid
            ≠ (.belowAutoReview d.confidence, st) := by
        by_cases hh1 : hourOf d.created_at < 12
        · have heq := proc_morning st persons d fid pid person hpid h1 hp h2 hh1
          rw [heq]
          rcases hck : (checkIn st persons pid d.created_at (some d.id) d.confidence
              d.camera_id false fid).1 with _ | aid | ⟨aid, nm, tt, isNew, cc⟩ <;>
            simp [ProcResult.reachedTimeHeuristic]
        · by_cases hh2 : 16 ≤ hourOf d.created_at
          · have heq := proc_evening st persons d fid pid person hpid h1 hp h2 hh1 hh2
            rw [heq]
            rcases hck : (checkOut st persons pid d.created_at (some d.id) d.confidence
                d.camera_id false).1 with _ | _ | aid | ⟨aid, nm, cit, cot, dm, cc⟩ <;>
              simp [ProcResult.reachedTimeHeuristic]
          · have heq := proc_midDay st persons d fid pid person hpid h1 hp h2 hh1 hh2
            rw [heq]
            simp [ProcResult.reachedTimeHeuristic]
      refine ⟨⟨fun hlt => absurd hlt h1, fun hres => absurd hres hmain.2.1⟩,
        ⟨?_, fun hres => absurd hres hmain.2.2⟩,
        ⟨fun _ => hmain.1, fun _ => h2⟩⟩
      rintro ⟨-, hlt⟩
      exact absurd h2 (not_le.2 hlt)
    · have heq := proc_belowAuto st persons d fid pid person hpid h1 hp h2
      refine ⟨⟨fun hlt => absurd hlt h1, ?_⟩,
        ⟨fun _ => heq, fun _ => ⟨not_lt.1 h1, not_le.1 h2⟩⟩,
        ⟨fun hle => absurd hle h2, ?_⟩⟩
      · intro hres
        rw [heq] at hres
        simp at hres
      · intro hres
        rw [heq] at hres
        simp [ProcResult.reachedTimeHeuristic] at hres

/-- C4 witness: the gate at the 0.60 boundary (needs review, store
unchanged) for a concrete detection. -/
theorem C4_witness :
    process_detection_for_attendance [] [⟨"P1", "Ada", "L"⟩]
        { id := "d3", camera_id := none, person_id := some "P1",
          confidence := mkRat 6 10, created_at := 28800 } "a1"
      = (.belowAutoReview (mkRat 6 10), []) :=
  ((C4_confidence_gate [] [⟨"P1", "Ada", "L"⟩]
    { id := "d3", camera_id := none, person_id := some "P1",
      confidence := mkRat 6 10, created_at := 28800 } "a1" "P1"
    ⟨"P1", "Ada", "L"⟩ rfl rfl).2.1).1 ⟨by decide, by decide⟩

/-- C5: for an auto-accepted detection (confidence ≥ 0.70, person linked and
resolvable), the wall-clock hour decides the action: hour < 12 attempts a
check-in (the store becomes the check-in store and the marked outcome
corresponds exactly to a recorded check-in), hour ≥ 16 attempts a check-out
likewise, and 12 ≤ hour < 16 — and only that band — yields the deferred
mid-day-ambiguous outcome with no write, never a silent check-in or
check-out. -/
theorem C5_time_heuristic (st : Store) (persons : List Person) (d : Detection)
    (fid : String) (pid : String) (person : Person)
    (hpid : d.person_id = some pid) (hp : getPerson persons pid = some person)
    (hauto : MIN_CONFIDENCE_FOR_AUTO_CHECK_IN ≤ d.confidence) :
    ((12 ≤ hourOf d.created_at ∧ hourOf d.created_at < 16) ↔
      process_detection_for_attendance st persons d fid
        = (.midDayReview d.confidence, st))
    ∧ (hourOf d.created_at < 12 →
        (process_detection_for_attendance st persons d fid).2
          = (checkIn st persons pid d.created_at (some d.id) d.confidence
              d.camera_id false fid).2
        ∧ ∀ (aid nm : String),
          ((process_detection_for_attendance st persons d fid).1
              = .checkInMarked aid nm d.confidence ↔
            ∃ (t : Nat) (isNew : Bool) (c : ℚ),
              (checkIn st persons pid d.created_at (some d.id) d.confidence
                d.camera_id false fid).1 = .recorded aid nm t isNew c))
    ∧ (16 ≤ hourOf d.created_at →
        (process_detection_for_attendance st persons d fid).2
          = (checkOut st persons pid d.created_at (some d.id) d.confidence
              d.camera_id false).2
        ∧ ∀ (aid nm : String),
          ((process_detection_for_attendance st persons d fid).1
              = .checkOutMarked aid nm d.confidence ↔
            ∃ (cit : Option Nat) (cot : Nat) (dm : Int) (c : ℚ),
              (checkOut st persons pid d.created_at (some d.id) d.confidence
                d.camera_id false).1 = .recorded aid nm cit cot dm c)) := by
  have h1 : ¬ d.confidence < MIN_CONFIDENCE_FOR_REVIEW := by
    intro hlt
    have hmono : MIN_CONFIDENCE_FOR_REVIEW ≤ MIN_CONFIDENCE_FOR_AUTO_CHECK_IN := by decide
    exact absurd hlt (not_lt.2 (hmono.trans hauto))
  by_cases hh1 : hourOf d.created_at < 12
  · have heq := proc_morning st persons d fid pid person hpid h1 hp hauto hh1
    refine ⟨⟨fun hmid => absurd hh1 (not_lt.2 hmid.1), fun hres => ?_⟩,
      fun _ => ?_, fun hh2 => absurd hh1 (by omega)⟩
    · rw [heq] at hres
      rcases hck : (checkIn st persons pid d.created_at (some d.id) d.confidence
          d.camera_id false fid).1 with _ | aid | ⟨aid, nm, tt, isNew, cc⟩ <;>
        rw [hck] at hres <;> simp at hres
    · rw [heq]
      refine ⟨rfl, fun aid nm => ?_⟩
      rcases hck : (checkIn st persons pid d.created_at (some d.id) d.confidence
          d.camera_id false fid).1 with _ | aid2 | ⟨aid2, nm2, tt2, isNew2, cc2⟩ <;>
        simp
  · by_cases hh2 : 16 ≤ hourOf d.created_at
    · have heq := proc_evening st persons d fid pid person hpid h1 hp hauto hh1 hh2
      refine ⟨⟨fun hmid => absurd hh2 (not_le.2 hmid.2), fun hres => ?_⟩,
        fun hlt => absurd hlt hh1, fun _ => ?_⟩
      · rw [heq] at hres
        rcases hck : (checkOut st persons pid d.created_at (some d.id) d.confidence
            d.camera_id false).1 with _ | _ | aid | ⟨aid, nm, cit, cot, dm, cc⟩ <;>
          rw [hck] at hres <;> simp at hres
      · rw [heq]
        refine ⟨rfl, fun aid nm => ?_⟩
        rcases hck : (checkOut st persons pid d.created_at (some d.id) d.confidence
            d.camera_id false).1 with _ | _ | aid2 | ⟨aid2, nm2, cit2, cot2, dm2, cc2⟩ <;>
          simp
    · have heq := proc_midDay st persons d fid pid person hpid h1 hp hauto hh1 hh2
      exact ⟨⟨fun _ => heq, fun _ => ⟨by omega, by omega⟩⟩,
        fun hlt => absurd hlt hh1, fun hge => absurd hge hh2⟩

/-- C5 witness: a concrete confident mid-day detection (13:00) is deferred
with no write. -/
theorem C5_witness :
    process_detection_for_attendance [] [⟨"P1", "Ada", "L"⟩]
        { id := "d4", camera_id := none, person_id := some "P1",
          confidence := mkRat 7 10, created_at := 46800 } "a1"
      = (.midDayReview (mkRat 7 10), []) :=
  ((C5_time_heuristic [] [⟨"P1", "Ada", "L"⟩]
    { id := "d4", camera_id := none, person_id := some "P1",
      confidence := mkRat 7 10, created_at := 46800 } "a1" "P1"
    ⟨"P1", "Ada", "L"⟩ rfl rfl (by decide)).1).1 ⟨by decide, by decide⟩

/-- C1 counterexample: the window is NOT symmetric.  A check-in event at
09:50 (35400 s) against a stored `check_in_time` of 10:00 (36000 s) is 10
minutes EARLIER than the stored time — outside the symmetric 5-minute window
the claim describes (`specSymmetricDup` is false) — yet the code classifies
it as a duplicate, because it compares the signed difference
(−10 minutes < 5). -/
theorem C1_counterexample :
    (checkIn
        [{ id := "a1", person_id := "P1", attendance_date := 0,
           check_in_time := some 36000 }]
        [⟨"P1", "Ada", "L"⟩] "P1" 35400 none 1 none false "a2").1
      = .duplicate "a1"
    ∧ specSymmetricDup 35400 (some 36000) = false := by
  exact ⟨rfl, rfl⟩

/-- C1 (amended): for the person's daily record, a check-in decision is a
duplicate iff the record exists, its `check_in_time` is set, and the SIGNED
difference `new_event_time − stored_time` is below 5 minutes — so any event
earlier than the stored time (by however much) is also suppressed; the
window is one-sided, not symmetric.  A check-out decision is a duplicate iff
additionally `check_in_time` is set and the signed difference against the
stored `check_out_time` is below 5 minutes.  With no record or the relevant
field unset the event is never a duplicate, and a duplicate outcome performs
no write. -/
theorem C1_duplicate_window (st : Store) (persons : List Person) (pid : String)
    (t : Nat) (det : Option String) (conf : ℚ) (cam : Option String) (man : Bool)
    (fid : String) (person : Person) (hp : getPerson persons pid = some person) :
    ((∃ aid, (checkIn st persons pid t det conf cam man fid).1 = .duplicate aid) ↔
      (∃ ex, get_by_person_and_date st pid (dayStart t) = some ex ∧
        ∃ old, ex.check_in_time = some old ∧ (t : Int) - (old : Int) < 300))
    ∧ (∀ aid, (checkIn st persons pid t det conf cam man fid).1 = .duplicate aid →
        (checkIn st persons pid t det conf cam man fid).2 = st)
    ∧ ((∃ aid, (checkOut st persons pid t det conf cam man).1 = .duplicate aid) ↔
      (∃ ex, get_by_person_and_date st pid (dayStart t) = some ex ∧
        (∃ inT, ex.check_in_time = some inT) ∧
        ∃ old, ex.check_out_time = some old ∧ (t : Int) - (old : Int) < 300))
    ∧ (∀ aid, (checkOut st persons pid t det conf cam man).1 = .duplicate aid →
        (checkOut st persons pid t det conf cam man).2 = st) := by
  rcases hf : get_by_person_and_date st pid (dayStart t) with _ | ex
  · rw [checkIn_create st persons pid t det conf cam man fid person hp hf,
      checkOut_noRecord st persons pid t det conf cam man person hp hf]
    refine ⟨⟨?_, ?_⟩, ?_, ⟨?_, ?_⟩, ?_⟩
    · rintro ⟨aid, h⟩
      simp at h
    · rintro ⟨ex, hex, -⟩
      simp at hex
    · intro aid h
      simp at h
    · rintro ⟨aid, h⟩
      simp at h
    · rintro ⟨ex, hex, -⟩
      simp at hex
    · intro aid h
      simp at h
  · have hmainIn :
        ((∃ aid, (checkIn st persons pid t det conf cam man fid).1 = .duplicate aid) ↔
          (∃ old, ex.check_in_time = some old ∧ (t : Int) - (old : Int) < 300))
        ∧ (∀ aid, (checkIn st persons pid t det conf cam man fid).1 = .duplicate aid →
            (checkIn st persons pid t det conf cam man fid).2 = st) := by
      rcases hci : ex.check_in_time with _ | old
      · have hd : isDupTime t ex.check_in_time = false := by rw [hci]; rfl
        rw [checkIn_update st persons pid t det conf cam man fid person ex hp hf hd]
        refine ⟨⟨?_, ?_⟩, ?_⟩
        · rintro ⟨aid, h⟩
          simp at h
        · rintro ⟨old, hold, -⟩
          simp at hold
        · intro aid h
          simp at h
      · by_cases hlt : (t : Int) - (old : Int) < 300
        · have hd : isDupTime t ex.check_in_time = true := by
            rw [hci]
            exact (isDupTime_some_iff t old).2 hlt
          rw [checkIn_dup st persons pid t det conf cam man fid person ex hp hf hd]
          exact ⟨⟨fun _ => ⟨old, rfl, hlt⟩, fun _ => ⟨ex.id, rfl⟩⟩, fun aid _ => rfl⟩
        · have hd : isDupTime t ex.check_in_time = false := by
            rw [hci]
            rcases hb : isDupTime t (some old) with _ | _
            · rfl
            · exact absurd ((isDupTime_some_iff t old).1 hb) hlt
          rw [checkIn_update st persons pid t det conf cam man fid person ex hp hf hd]
          refine ⟨⟨?_, ?_⟩, ?_⟩
          · rintro ⟨aid, h⟩
            simp at h
          · rintro ⟨old2, hold2, hlt2⟩
            cases hold2
            exact absurd hlt2 hlt
          · intro aid h
            simp at h
    have hmainOut :
        ((∃ aid, (checkOut st persons pid t det conf cam man).1 = .duplicate aid) ↔
          ((∃ inT, ex.check_in_time = some inT) ∧
            ∃ old, ex.check_out_time = some old ∧ (t : Int) - (old : Int) < 300))
        ∧ (∀ aid, (checkOut st persons pid t det conf cam man).1 = .duplicate aid →
            (checkOut st persons pid t det conf cam man).2 = st) := by
      rcases hci : ex.check_in_time with _ | inT
      · rw [checkOut_noCheckInTime st persons pid t det conf cam man person ex hp hf hci]
        refine ⟨⟨?_, ?_⟩, ?_⟩
        · rintro ⟨aid, h⟩
          simp at h
        · rintro ⟨⟨inT, hinT⟩, -⟩
          simp at hinT
        · intro aid h
          simp at h
      · rcases hco : ex.check_out_time with _ | old
        · have hd : isDupTime t ex.check_out_time = false := by rw [hco]; rfl
          rw [checkOut_recorded st persons pid t det conf cam man person ex inT hp hf hci hd]
          refine ⟨⟨?_, ?_⟩, ?_⟩
          · rintro ⟨aid, h⟩
            simp at h
          · rintro ⟨-, old, hold, -⟩
            simp at hold
          · intro aid h
            simp at h
        · by_cases hlt : (t : Int) - (old : Int) < 300
          · have hd : isDupTime t ex.check_out_time = true := by
              rw [hco]
              exact (isDupTime_some_iff t old).2 hlt
            rw [checkOut_dup st persons pid t det conf cam man person ex inT hp hf hci hd]
            exact ⟨⟨fun _ => ⟨⟨inT, rfl⟩, old, rfl, hlt⟩, fun _ => ⟨ex.id, rfl⟩⟩,
              fun aid _ => rfl⟩
          · have hd : isDupTime t ex.check_out_time = false := by
              rw [hco]
              rcases hb : isDupTime t (some old) with _ | _
              · rfl
              · exact absurd ((isDupTime_some_iff t old).1 hb) hlt
            rw [checkOut_recorded st persons pid t det conf cam man person ex inT hp hf hci hd]
            refine ⟨⟨?_, ?_⟩, ?_⟩
            · rintro ⟨aid, h⟩
              simp at h
            · rintro ⟨-, old2, hold2, hlt2⟩
              cases hold2
              exact absurd hlt2 hlt
            · intro aid h
              simp at h
    refine ⟨?_, hmainIn.2, ?_, hmainOut.2⟩
    · rw [hmainIn.1]
      constructor
      · intro h
        exact ⟨ex, rfl, h⟩
      · rintro ⟨ex2, hex2, h⟩
        cases hex2
        exact h
    · rw [hmainOut.1]
      constructor
      · intro h
        exact ⟨ex, rfl, h⟩
      · rintro ⟨ex2, hex2, h⟩
        cases hex2
        exact h

/-- C1 witness: a check-in one minute after the stored check-in time is a
duplicate and performs no write. -/
theorem C1_witness :
    (∃ aid, (checkIn
        [{ id := "a1", person_id := "P1", attendance_date := 0,
           check_in_time := some 36000 }]
        [⟨"P1", "Ada", "L"⟩] "P1" 36060 none 1 none false "a2").1
      = .duplicate aid) :=
  (C1_duplicate_window
    [{ id := "a1", person_id := "P1", attendance_date := 0,
       check_in_time := some 36000 }]
    [⟨"P1", "Ada", "L"⟩] "P1" 36060 none 1 none false "a2"
    ⟨"P1", "Ada", "L"⟩ rfl).1.mpr
    ⟨{ id := "a1", person_id := "P1", attendance_date := 0,
       check_in_time := some 36000 }, rfl, 36000, rfl, by decide⟩

/-- C2 counterexample: a check-out at 09:00 (32400 s) against a record whose
`check_in_time` is 10:00 (36000 s) is NOT rejected as a data error: the code
returns a recorded outcome, writes `check_out_time = 32400 <
check_in_time = 36000` and stores the negative `duration_minutes = -60`. -/
theorem C2_counterexample :
    checkOut
        [{ id := "a1", person_id := "P1", attendance_date := 0,
           check_in_time := some 36000 }]
        [⟨"P1", "Ada", "L"⟩] "P1" 32400 none 1 none false
      = (.recorded "a1" "Ada L" (some 36000) 32400 (-60) 1,
         [{ id := "a1", person_id := "P1", attendance_date := 0,
            check_in_time := some 36000, check_out_time := some 32400,
            check_out_confidence := 1, duration_minutes := some (-60) }])
    ∧ ¬((36000 : Nat) ≤ 32400) := by
  exact ⟨rfl, by decide⟩

/-- C2 (amended): a check-out with no existing record, or with
`check_in_time` unset, is rejected with no record created or written; every
recorded check-out outcome carries a non-null `check_in_time` and the
duration `int((event_time − check_in_time)/60)` — but an event time that
precedes `check_in_time` is NOT rejected: the outcome is still recorded,
with a negative duration. -/
theorem C2_no_orphan_checkout (st : Store) (persons : List Person) (pid : String)
    (t : Nat) (det : Option String) (conf : ℚ) (cam : Option String) (man : Bool)
    (person : Person) (hp : getPerson persons pid = some person) :
    (get_by_person_and_date st pid (dayStart t) = none →
      checkOut st persons pid t det conf cam man = (.noCheckInRecord, st))
    ∧ (∀ ex, get_by_person_and_date st pid (dayStart t) = some ex →
        ex.check_in_time = none →
        checkOut st persons pid t det conf cam man = (.noCheckInRecord, st))
    ∧ (∀ (aid nm : String) (cit : Option Nat) (cot : Nat) (dm : Int) (cf : ℚ),
        (checkOut st persons pid t det conf cam man).1 = .recorded aid nm cit cot dm cf →
        ∃ inT, cit = some inT ∧ cot = t
          ∧ dm = Int.tdiv ((t : Int) - (inT : Int)) 60) := by
  refine ⟨fun hf => checkOut_noRecord st persons pid t det conf cam man person hp hf,
    fun ex hf hci => checkOut_noCheckInTime st persons pid t det conf cam man person ex hp hf hci,
    ?_⟩
  intro aid nm cit cot dm cf h
  rcases hf : get_by_person_and_date st pid (dayStart t) with _ | ex
  · rw [checkOut_noRecord st persons pid t det conf cam man person hp hf] at h
    simp at h
  · rcases hci : ex.check_in_time with _ | inT
    · rw [checkOut_noCheckInTime st persons pid t det conf cam man person ex hp hf hci] at h
      simp at h
    · rcases hd : isDupTime t ex.check_out_time with _ | _
      · rw [checkOut_recorded st persons pid t det conf cam man person ex inT hp hf hci hd] at h
        simp at h
        obtain ⟨-, -, h3, h4, h5, -⟩ := h
        exact ⟨inT, h3.symm, h4.symm, h5.symm⟩
      · rw [checkOut_dup st persons pid t det conf cam man person ex inT hp hf hci hd] at h
        simp at h

/-- C2 witness: the amended property at a concrete recorded check-out (in at
08:00, out at 17:00, duration 540). -/
theorem C2_witness :
    ∃ inT, (some 28800 : Option Nat) = some inT ∧ (61200 : Nat) = 61200
      ∧ (540 : Int) = Int.tdiv ((61200 : Int) - (inT : Int)) 60 :=
  (C2_no_orphan_checkout
    [{ id := "a1", person_id := "P1", attendance_date := 0,
       check_in_time := some 28800 }]
    [⟨"P1", "Ada", "L"⟩] "P1" 61200 none 1 none false
    ⟨"P1", "Ada", "L"⟩ rfl).2.2 "a1" "Ada L" (some 28800) 61200 540 1 rfl

/-- C6 counterexample: `duration_minutes` goes stale.  The sequence check-in
08:00, check-out 17:00 (duration 540), then a later overwriting check-in at
09:00 (outside the duplicate window) leaves the record with
`check_in_time = 09:00`, `check_out_time = 17:00` and `duration_minutes =
540`, whereas floor((check_out − check_in)/60) = 480: the check-in overwrite
does not recompute the stored duration. -/
theorem C6_counterexample :
    ((checkIn (checkOut (checkIn [] [⟨"P1", "Ada", "L"⟩] "P1" 28800 none 1
            none false "a1").2
          [⟨"P1", "Ada", "L"⟩] "P1" 61200 none 1 none false).2
        [⟨"P1", "Ada", "L"⟩] "P1" 32400 none 1 none false "a2").2.map
      (fun a => (a.check_in_time, a.check_out_time, a.duration_minutes))
      = [(some 32400, some 61200, some 540)])
    ∧ Int.tdiv ((61200 : Int) - (32400 : Int)) 60 = 480
    ∧ (540 : Int) ≠ 480 := by
  exact ⟨rfl, by decide, by decide⟩

/-- C6 (amended): every check-out write recomputes `duration_minutes` as the
zero-truncated minutes between the event time and the record's current
`check_in_time` (equal to the floor whenever check-in ≤ check-out), and
stores the event time as `check_out_time`; a check-in write, by contrast,
never touches `duration_minutes`, so a later overwrite of the check-in
fields on a record that already has a `check_out_time` leaves the stored
duration stale. -/
theorem C6_duration (st : Store) (persons : List Person) (pid : String)
    (t : Nat) (det : Option String) (conf : ℚ) (cam : Option String) (man : Bool)
    (person : Person) (ex : Attendance) (inT : Nat)
    (hp : getPerson persons pid = some person)
    (hf : get_by_person_and_date st pid (dayStart t) = some ex)
    (hci : ex.check_in_time = some inT)
    (hd : isDupTime t ex.check_out_time = false) :
    (∀ a ∈ (checkOut st persons pid t det conf cam man).2, a.id = ex.id →
        a.duration_minutes = some (Int.tdiv ((t : Int) - (inT : Int)) 60)
        ∧ a.check_out_time = some t)
    ∧ (inT ≤ t →
        Int.tdiv ((t : Int) - (inT : Int)) 60 = Int.fdiv ((t : Int) - (inT : Int)) 60)
    ∧ (∀ (st2 : Store) (pid2 : String) (t2 : Nat) (det2 : Option String)
        (conf2 : ℚ) (cam2 : Option String) (man2 : Bool) (fid2 : String),
        ∀ b ∈ st2,
        ∃ b' ∈ (checkIn st2 persons pid2 t2 det2 conf2 cam2 man2 fid2).2,
          b'.id = b.id ∧ b'.duration_minutes = b.duration_minutes) := by
  refine ⟨?_, ?_, ?_⟩
  · rw [checkOut_recorded st persons pid t det conf cam man person ex inT hp hf hci hd]
    intro a ha hid
    simp only [updateById, List.mem_map] at ha
    obtain ⟨b, hb, rfl⟩ := ha
    by_cases hbid : (b.id == ex.id) = true
    · simp only [hbid, if_true]
      constructor
      · simp [applyUpdate, checkOutUpdateArgs, setOpt]
      · simp [applyUpdate, checkOutUpdateArgs, setOpt]
    · rw [if_neg hbid] at hid
      exact absurd hid (by simpa using hbid)
  · intro hle
    have hnn : (0 : Int) ≤ (t : Int) - (inT : Int) := by
      omega
    rw [Int.tdiv_eq_ediv hnn (by norm_num), Int.fdiv_eq_ediv _ (by norm_num)]
  · intro st2 pid2 t2 det2 conf2 cam2 man2 fid2 b hb
    rcases hp2 : getPerson persons pid2 with _ | person2
    · rw [checkIn_personNotFound st2 persons pid2 t2 det2 conf2 cam2 man2 fid2 hp2]
      exact ⟨b, hb, rfl, rfl⟩
    · rcases hf2 : get_by_person_and_date st2 pid2 (dayStart t2) with _ | ex2
      · rw [checkIn_create st2 persons pid2 t2 det2 conf2 cam2 man2 fid2 person2 hp2 hf2]
        exact ⟨b, List.mem_append_left _ hb, rfl, rfl⟩
      · rcases hd2 : isDupTime t2 ex2.check_in_time with _ | _
        · rw [checkIn_update st2 persons pid2 t2 det2 conf2 cam2 man2 fid2 person2 ex2
            hp2 hf2 hd2]
          refine ⟨(fun c => if c.id == ex2.id then
              applyUpdate c (checkInUpdateArgs t2 det2 conf2 cam2 man2) else c) b,
            List.mem_map_of_mem _ hb, ?_, ?_⟩
          · by_cases hid : (b.id == ex2.id) <;> simp [hid, applyUpdate_id]
          · by_cases hid : (b.id == ex2.id) <;>
              simp [hid, applyUpdate, setOpt, checkInUpdateArgs]
        · rw [checkIn_dup st2 persons pid2 t2 det2 conf2 cam2 man2 fid2 person2 ex2
            hp2 hf2 hd2]
          exact ⟨b, hb, rfl, rfl⟩

/-- C6 witness: the recompute-on-check-out property at a concrete store (in
08:00, out 17:00): the written row carries `duration_minutes =
int((61200 − 28800)/60) = 540` and `check_out_time = 61200`. -/
theorem C6_witness :
    (some 540 : Option Int) = some (Int.tdiv ((61200 : Int) - (28800 : Int)) 60)
    ∧ (some 61200 : Option Nat) = some 61200 :=
  (C6_duration
    [{ id := "a1", person_id := "P1", attendance_date := 0,
       check_in_time := some 28800 }]
    [⟨"P1", "Ada", "L"⟩] "P1" 61200 none 1 none false
    ⟨"P1", "Ada", "L"⟩
    { id := "a1", person_id := "P1", attendance_date := 0,
      check_in_time := some 28800 } 28800 rfl rfl rfl rfl).1
    { id := "a1", person_id := "P1", attendance_date := 0,
      check_in_time := some 28800, check_out_time := some 61200,
      check_out_confidence := 1, duration_minutes := some 540 }
    (by decide) rfl

/-- C7: `manually_approve_attendance` with an explicit action calls
`check_in`/`check_out` directly with `is_manual = true`: no confidence gate
and no hour-of-day heuristic constrains it (a manual check-in or check-out
at ANY timestamp — midday included — is recorded when it is not a
duplicate), while duplicate suppression still applies: a manual approval
whose timestamp lies within 5 minutes (in absolute value) of the stored
`check_in_time`/`check_out_time` is rejected as a duplicate with no
write. -/
theorem C7_manual_override (st : Store) (persons : List Person)
    (det pid : String) (ts : Nat) (fid : String) (person : Person)
    (hp : getPerson persons pid = some person) :
    (get_by_person_and_date st pid (dayStart ts) = none →
      (manually_approve_attendance st persons det pid "check_in" ts fid).1
        = .fromCheckIn (.recorded fid (displayName person) ts true 1))
    ∧ (∀ ex, get_by_person_and_date st pid (dayStart ts) = some ex →
        isDupTime ts ex.check_in_time = false →
        (manually_approve_attendance st persons det pid "check_in" ts fid).1
          = .fromCheckIn (.recorded ex.id (displayName person) ts false 1))
    ∧ (∀ ex inT, get_by_person_and_date st pid (dayStart ts) = some ex →
        ex.check_in_time = some inT →
        isDupTime ts ex.check_out_time = false →
        (manually_approve_attendance st persons det pid "check_out" ts fid).1
          = .fromCheckOut (.recorded ex.id (displayName person) (some inT) ts
              (Int.tdiv ((ts : Int) - (inT : Int)) 60) 1))
    ∧ (∀ ex old, get_by_person_and_date st pid (dayStart ts) = some ex →
        ex.check_in_time = some old → ((ts : Int) - (old : Int)).natAbs < 300 →
        manually_approve_attendance st persons det pid "check_in" ts fid
          = (.fromCheckIn (.duplicate ex.id), st))
    ∧ (∀ ex inT old, get_by_person_and_date st pid (dayStart ts) = some ex →
        ex.check_in_time = some inT → ex.check_out_time = some old →
        ((ts : Int) - (old : Int)).natAbs < 300 →
        manually_approve_attendance st persons det pid "check_out" ts fid
          = (.fromCheckOut (.duplicate ex.id), st)) := by
  refine ⟨?_, ?_, ?_, ?_, ?_⟩
  · intro hf
    have hck := checkIn_create st persons pid ts (some det) 1 none true fid person hp hf
    simp [manually_approve_attendance, hck]
  · intro ex hf hd
    have hck := checkIn_update st persons pid ts (some det) 1 none true fid person ex hp hf hd
    simp [manually_approve_attendance, hck]
  · intro ex inT hf hci hd
    have hck := checkOut_recorded st persons pid ts (some det) 1 none true person ex inT
      hp hf hci hd
    simp [manually_approve_attendance, hck]
  · intro ex old hf hci habs
    have hlt : (ts : Int) - (old : Int) < 300 := by omega
    have hdup : isDupTime ts ex.check_in_time = true := by
      rw [hci]
      exact (isDupTime_some_iff ts old).2 hlt
    have hck := checkIn_dup st persons pid ts (some det) 1 none true fid person ex hp hf hdup
    simp [manually_approve_attendance, hck]
  · intro ex inT old hf hci hco habs
    have hlt : (ts : Int) - (old : Int) < 300 := by omega
    have hdup : isDupTime ts ex.check_out_time = true := by
      rw [hco]
      exact (isDupTime_some_iff ts old).2 hlt
    have hck := checkOut_dup st persons pid ts (some det) 1 none true person ex inT
      hp hf hci hdup
    simp [manually_approve_attendance, hck]

/-- C7 witness: a manual check-in at 13:00 (a time the auto path would defer
as mid-day ambiguous) is recorded, overwriting the stored 08:00 check-in. -/
theorem C7_witness :
    (manually_approve_attendance
        [{ id := "a1", person_id := "P1", attendance_date := 0,
           check_in_time := some 28800 }]
        [⟨"P1", "Ada", "L"⟩] "d7" "P1" "check_in" 46800 "a2").1
      = .fromCheckIn (.recorded "a1" "Ada L" 46800 false 1) :=
  (C7_manual_override
    [{ id := "a1", person_id := "P1", attendance_date := 0,
       check_in_time := some 28800 }]
    [⟨"P1", "Ada", "L"⟩] "d7" "P1" 46800 "a2" ⟨"P1", "Ada", "L"⟩ rfl).2.1
    { id := "a1", person_id := "P1", attendance_date := 0,
      check_in_time := some 28800 } rfl rfl

/-- C8 counterexample: the batch result has no `rejected_duplicate` counter
and its only total-like field, `total_processed`, counts only auto-marked
events: a batch of ONE needs-review detection (confidence 0.65) returns
`total_processed = 0`, not the number of events submitted (1). -/
theorem C8_counterexample :
    (process_batch_detections [⟨"P1", "Ada", "L"⟩] (fun _ => "a") 0 []
        [{ id := "d1", camera_id := none, person_id := some "P1",
           confidence := mkRat 65 100, created_at := 28800 }]).1.total_processed = 0
    ∧ (process_batch_detections [⟨"P1", "Ada", "L"⟩] (fun _ => "a") 0 []
        [{ id := "d1", camera_id := none, person_id := some "P1",
           confidence := mkRat 65 100, created_at := 28800 }]).1.requires_review = 1 := by
  exact ⟨rfl, rfl⟩

/-- C8 (amended): the batch coordinator processes each event independently
and returns counts `{total_processed, auto_marked, requires_review, failed}`
(there is no `rejected_duplicate` counter; duplicates land in `failed`):
every event is counted in exactly one of `auto_marked` / `requires_review` /
`failed`, whose sum is the number of events submitted, one detail entry per
event is kept, and `total_processed` equals `auto_marked` — it is NOT the
number of events submitted. -/
theorem C8_batch_counts (persons : List Person) (idGen : Nat → String)
    (n : Nat) (st : Store) (ds : List Detection) :
    (process_batch_detections persons idGen n st ds).1.auto_marked
      + (process_batch_detections persons idGen n st ds).1.requires_review
      + (process_batch_detections persons idGen n st ds).1.failed = ds.length
    ∧ (process_batch_detections persons idGen n st ds).1.total_processed
      = (process_batch_detections persons idGen n st ds).1.auto_marked
    ∧ (process_batch_detections persons idGen n st ds).1.details.length = ds.length := by
  induction ds generalizing n st with
  | nil => exact ⟨rfl, rfl, rfl⟩
  | cons d rest ih =>
    unfold process_batch_detections
    rcases hr : process_detection_for_attendance st persons d (idGen n) with ⟨r, st1⟩
    have ih' := ih (n + 1) st1
    rcases hb : process_batch_detections persons idGen (n + 1) st1 rest with ⟨acc, st2⟩
    rw [hb] at ih'
    obtain ⟨ih1, ih2, ih3⟩ := ih'
    simp only at ih1 ih2 ih3
    cases hrp : r.processed <;> cases hrr : r.requiresReview <;>
      simp [hrp, hrr, hr, hb, ih2, ih3] <;> omega

/-- C3 counterexample: two concurrent identical check-in decisions whose
record fetches both happen before either write (the fetch and the commit are
separate awaited database operations, with no row lock and no unique
constraint on `(person_id, attendance_date)`) create TWO records for the
same person and day, not one. -/
theorem C3_counterexample :
    ((checkInStale []
        (checkInStale [] [] [⟨"P1", "Ada", "L"⟩] "P1" 28800 none 1 none false "a1").2
        [⟨"P1", "Ada", "L"⟩] "P1" 28800 none 1 none false "a2").2).length = 2
    ∧ ¬ uniquePerPersonDay
        ((checkInStale []
          (checkInStale [] [] [⟨"P1", "Ada", "L"⟩] "P1" 28800 none 1 none false "a1").2
          [⟨"P1", "Ada", "L"⟩] "P1" 28800 none 1 none false "a2").2) := by
  refine ⟨rfl, ?_⟩
  unfold uniquePerPersonDay
  decide

/-- C3 (amended): when each decision runs its fetch–decide–write atomically
(sequential execution), `check_in` and `check_out` preserve the at-most-one
record per `(person_id, attendance_date)` invariant: check-in creates a
record only when the fetch finds none for that person and day and otherwise
updates in place, and check-out only updates in place.  The code itself,
however, has no per-`(person_id, date)` mutual-exclusion boundary and no
unique constraint, so concurrently interleaved decisions can violate
uniqueness (see the counterexample). -/
theorem C3_uniqueness (st : Store) (persons : List Person) (pid : String)
    (t : Nat) (det : Option String) (conf : ℚ) (cam : Option String)
    (man : Bool) (fid : String) (h : uniquePerPersonDay st) :
    uniquePerPersonDay (checkIn st persons pid t det conf cam man fid).2
    ∧ uniquePerPersonDay (checkOut st persons pid t det conf cam man).2 := by
  constructor
  · rcases hp : getPerson persons pid with _ | person
    · rw [checkIn_personNotFound st persons pid t det conf cam man fid hp]
      exact h
    · rcases hf : get_by_person_and_date st pid (dayStart t) with _ | ex
      · rw [checkIn_create st persons pid t det conf cam man fid person hp hf]
        refine uniquePerPersonDay_append_new st _ h ?_
        intro b hb hcontra
        have hnone := (get_by_person_and_date_eq_none_iff st pid (dayStart t)).1 hf b hb
        apply hnone
        refine ⟨hcontra.1, ?_⟩
        have h2 := hcontra.2
        rw [show (newCheckInRecord fid pid (dayStart t) t det conf cam man).attendance_date
          = dayStart t from rfl] at h2
        rwa [dayStart_dayStart] at h2 ⊢
      · rcases hd : isDupTime t ex.check_in_time with _ | _
        · rw [checkIn_update st persons pid t det conf cam man fid person ex hp hf hd]
          exact uniquePerPersonDay_updateById st ex.id _ h
        · rw [checkIn_dup st persons pid t det conf cam man fid person ex hp hf hd]
          exact h
  · rcases hp : getPerson persons pid with _ | person
    · rw [checkOut_personNotFound st persons pid t det conf cam man hp]
      exact h
    · rcases hf : get_by_person_and_date st pid (dayStart t) with _ | ex
      · rw [checkOut_noRecord st persons pid t det conf cam man person hp hf]
        exact h
      · rcases hci : ex.check_in_time with _ | inT
        · rw [checkOut_noCheckInTime st persons pid t det conf cam man person ex hp hf hci]
          exact h
        · rcases hd : isDupTime t ex.check_out_time with _ | _
          · rw [checkOut_recorded st persons pid t det conf cam man person ex inT
              hp hf hci hd]
            exact uniquePerPersonDay_updateById st ex.id _ h
          · rw [checkOut_dup st persons pid t det conf cam man person ex inT hp hf hci hd]
            exact h

/-- C3 witness: a sequential check-in on an empty store keeps the
uniqueness invariant. -/
theorem C3_witness :
    uniquePerPersonDay
      (checkIn [] [⟨"P1", "Ada", "L"⟩] "P1" 28800 none 1 none false "a1").2 :=
  (C3_uniqueness [] [⟨"P1", "Ada", "L"⟩] "P1" 28800 none 1 none false "a1"
    List.Pairwise.nil).1

end FaceAttendance
